import Mathlib

/-!
Shallow embedding of the Atlas-Sentinel risk-aggregation and ingestion-cache
core, translated from the Python sources under `src/backend`. Machine reals
are modelled by `ℚ` (Python decimal literals are exact in `ℚ`); dictionary
fields read with `.get(key, default)` become `Option` fields read with
`getD`; raising constructors become `Option`-returning functions.
-/

namespace AtlasSentinel

/-! ## RiskScorer (src/backend/ml/risk_scorer.py) -/

/-- The four weights stored on a `RiskScorer` instance after `__init__`. -/
structure Weights where
  weather : ℚ
  sentiment : ℚ
  congestion : ℚ
  historical : ℚ
deriving Repr, DecidableEq

/-- `RiskScorer.__init__` normalization step: each weight is divided by the
sum of the four supplied weights (risk_scorer.py lines 40-45). -/
def normalizeWeights (w s c h : ℚ) : Weights :=
  let total := w + s + c + h
  { weather := w / total
    sentiment := s / total
    congestion := c / total
    historical := h / total }

/-- `RiskScorer.__init__` as a fallible constructor. The Python body performs
no validation at all; the only way it can raise is the `ZeroDivisionError`
from `weight / total` when the four weights sum to zero, which we model as
`none`. Every other input — negative weights included — succeeds. -/
def riskScorerInit (w s c h : ℚ) : Option Weights :=
  if w + s + c + h = 0 then none else some (normalizeWeights w s c h)

/-- Weights of `RiskScorer()` built with the default arguments
0.35 / 0.30 / 0.25 / 0.10 (as in src/backend/main.py line 33). -/
def defaultWeights : Weights := normalizeWeights 0.35 0.30 0.25 0.10

/-- `self.high_risk_threshold` (risk_scorer.py line 48). -/
def highRiskThreshold : ℚ := 0.7

/-- `self.medium_risk_threshold` (risk_scorer.py line 49). -/
def mediumRiskThreshold : ℚ := 0.4

/-- The `weather_data` dict consumed by `compute_weather_risk`; every key is
read with `.get`, hence `Option` fields. -/
structure WeatherData where
  severity : Option String := none
  wtype : Option String := none
  duration_hours : Option ℚ := none
deriving Repr, DecidableEq

/-- `severity_map.get(severity, 0.0)` (risk_scorer.py lines 61-69). -/
def severityBase (s : String) : ℚ :=
  if s = "none" then 0
  else if s = "light" then 0.2
  else if s = "moderate" then 0.5
  else if s = "severe" then 0.8
  else if s = "extreme" then 1.0
  else 0

/-- `type_multipliers.get(type, 1.0)` (risk_scorer.py lines 72-80). -/
def typeMultiplier (t : String) : ℚ :=
  if t = "hurricane" then 1.2
  else if t = "typhoon" then 1.2
  else if t = "storm" then 1.0
  else if t = "fog" then 0.6
  else if t = "ice" then 0.8
  else if t = "wind" then 0.7
  else 1.0

/-- `RiskScorer.compute_weather_risk` (risk_scorer.py lines 51-87). -/
def computeWeatherRisk (wd : WeatherData) : ℚ :=
  let base_risk := severityBase (wd.severity.getD "none")
  let multiplier := typeMultiplier (wd.wtype.getD "storm")
  let duration_hours := wd.duration_hours.getD 0
  let duration_factor := min 1.0 (duration_hours / 48.0)
  min 1.0 (base_risk * multiplier * (0.7 + 0.3 * duration_factor))

/-- The `sentiment_data` dict consumed by `compute_sentiment_risk`. -/
structure SentimentData where
  sentiment_score : Option ℚ := none
  article_count : Option ℚ := none
  urgency_keywords : Option ℚ := none
deriving Repr, DecidableEq

/-- `RiskScorer.compute_sentiment_risk` (risk_scorer.py lines 89-115). -/
def computeSentimentRisk (sd : SentimentData) : ℚ :=
  let sentiment_score := sd.sentiment_score.getD 0
  let sentiment_risk := (1.0 - sentiment_score) / 2.0
  let volume_factor := min 1.0 (sd.article_count.getD 0 / 10.0)
  let urgency_factor := min 1.0 (sd.urgency_keywords.getD 0 / 5.0)
  min 1.0 (sentiment_risk * (0.6 + 0.2 * volume_factor + 0.2 * urgency_factor))

/-- The `congestion_data` dict consumed by `compute_congestion_risk`. -/
structure CongestionData where
  congestion_index : Option ℚ := none
  wait_time_hours : Option ℚ := none
  vessel_count : Option ℚ := none
deriving Repr, DecidableEq

/-- `RiskScorer.compute_congestion_risk` (risk_scorer.py lines 117-139). -/
def computeCongestionRisk (cd : CongestionData) : ℚ :=
  let congestion_index := cd.congestion_index.getD 0
  let wait_factor := min 1.0 (cd.wait_time_hours.getD 0 / 72.0)
  let capacity_factor := min 1.0 (cd.vessel_count.getD 0 / 50.0)
  min 1.0 (congestion_index * 0.5 + wait_factor * 0.3 + capacity_factor * 0.2)

/-- The optional `historical_data` dict. -/
structure HistoricalData where
  disruption_rate : Option ℚ := none
  recent_disruptions : Option ℚ := none
deriving Repr, DecidableEq

/-- `RiskScorer.compute_historical_risk` (risk_scorer.py lines 141-163);
returns the 0.1 default when `historical_data is None`. -/
def computeHistoricalRisk (hd : Option HistoricalData) : ℚ :=
  match hd with
  | none => 0.1
  | some d =>
      let disruption_rate := d.disruption_rate.getD 0
      let recent_factor := min 1.0 (d.recent_disruptions.getD 0 / 3.0)
      min 1.0 (disruption_rate * 0.7 + recent_factor * 0.3)

/-- The risk-level branch of `compute_route_risk`
(risk_scorer.py lines 198-204). -/
def riskLevelOf (total_risk : ℚ) : String :=
  if highRiskThreshold ≤ total_risk then "high"
  else if mediumRiskThreshold ≤ total_risk then "medium"
  else "low"

/-- The dict returned by `compute_route_risk` (timestamp field omitted:
wall-clock only). -/
structure RiskAssessment where
  route_id : String
  total_risk : ℚ
  risk_level : String
  weather_component : ℚ
  sentiment_component : ℚ
  congestion_component : ℚ
  historical_component : ℚ
  weights : Weights
deriving Repr, DecidableEq

/-- `RiskScorer.compute_route_risk` (risk_scorer.py lines 165-223). -/
def computeRouteRisk (ws : Weights) (route_id : String)
    (wd : WeatherData) (sd : SentimentData) (cd : CongestionData)
    (hd : Option HistoricalData) : RiskAssessment :=
  let weather_risk := computeWeatherRisk wd
  let sentiment_risk := computeSentimentRisk sd
  let congestion_risk := computeCongestionRisk cd
  let historical_risk := computeHistoricalRisk hd
  let total_risk :=
    weather_risk * ws.weather +
    sentiment_risk * ws.sentiment +
    congestion_risk * ws.congestion +
    historical_risk * ws.historical
  { route_id := route_id
    total_risk := total_risk
    risk_level := riskLevelOf total_risk
    weather_component := weather_risk
    sentiment_component := sentiment_risk
    congestion_component := congestion_risk
    historical_component := historical_risk
    weights := ws }

/-! ## Cascade forecast: RiskScorer.predict_cascading_delays
(risk_scorer.py lines 225-269) and
TimeSeriesForecaster.forecast_delay_cascade
(time_series_forecaster.py lines 102-156) -/

/-- One element of the `route_risks` input list. `predict_cascading_delays`
indexes `risk_level` / `total_risk` / `route_id` directly;
`forecast_delay_cascade` reads the same keys with `.get` defaults and also
reads an optional `predicted_delay_hours` key (absent from the dicts
`compute_route_risk` produces). -/
structure RouteRiskIn where
  route_id : String
  total_risk : ℚ
  risk_level : String
  predicted_delay_hours : Option ℚ := none
deriving Repr, DecidableEq

/-- One element of the result list of either cascade function (the
forecaster additionally emits a `confidence` field). -/
structure DelayForecast where
  route_id : String
  predicted_delay_hours : ℚ
  base_delay : ℚ
  cascading_delay : ℚ
  risk_level : String
  confidence : Option ℚ := none
deriving Repr, DecidableEq

/-- The `network_graph` dict: route id to list of dependent route ids. -/
def NetworkGraph := List (String × List String)

/-- Base-delay branch of `predict_cascading_delays`
(risk_scorer.py lines 241-247): no `else` branch, low risk keeps 0. -/
def scorerBaseDelay (r : RouteRiskIn) : ℚ :=
  if r.risk_level = "high" then 24 + (r.total_risk - 0.7) * 100
  else if r.risk_level = "medium" then 6 + (r.total_risk - 0.4) * 30
  else 0

/-- The cascading loop of `predict_cascading_delays`
(risk_scorer.py lines 250-257): for each dependent route id the CURRENT
route's own `base_delay_hours * 0.3` is accumulated. -/
def scorerCascadingDelay (base_delay_hours : ℚ) (dependents : List String) : ℚ :=
  dependents.foldl (fun acc _ => acc + base_delay_hours * 0.3) 0

/-- Per-route body of `predict_cascading_delays`. `if network_graph:` is
Python truthiness: `None` and the empty dict both skip the block. -/
def predictCascadingDelaysOne (network_graph : Option NetworkGraph)
    (r : RouteRiskIn) : DelayForecast :=
  let base_delay_hours := scorerBaseDelay r
  let cascading_delay :=
    match network_graph with
    | none => 0
    | some g =>
        if g.isEmpty then 0
        else match g.lookup r.route_id with
          | none => 0
          | some dependents => scorerCascadingDelay base_delay_hours dependents
  { route_id := r.route_id
    predicted_delay_hours := base_delay_hours + cascading_delay
    base_delay := base_delay_hours
    cascading_delay := cascading_delay
    risk_level := r.risk_level }

/-- `RiskScorer.predict_cascading_delays` (risk_scorer.py lines 225-269). -/
def predictCascadingDelays (route_risks : List RouteRiskIn)
    (network_graph : Option NetworkGraph) : List DelayForecast :=
  route_risks.map (predictCascadingDelaysOne network_graph)

/-- Base-delay branch of `forecast_delay_cascade`
(time_series_forecaster.py lines 122-127): distinct coefficients and a
nonzero low-risk formula. -/
def forecasterBaseDelay (r : RouteRiskIn) : ℚ :=
  if r.risk_level = "high" then 24 + (r.total_risk - 0.7) * 120
  else if r.risk_level = "medium" then 6 + (r.total_risk - 0.4) * 40
  else r.total_risk * 10

/-- `next((r for r in route_risks if r.get('route_id') == dep_route), None)`
(time_series_forecaster.py lines 136-139). -/
def findRouteRisk (route_risks : List RouteRiskIn) (rid : String) :
    Option RouteRiskIn :=
  route_risks.find? (fun r => r.route_id = rid)

/-- The cascading loop of `forecast_delay_cascade`
(time_series_forecaster.py lines 134-143): each dependent found in the
input list contributes `dep_risk.get('predicted_delay_hours', 0) * 0.3`. -/
def forecasterCascadingDelay (route_risks : List RouteRiskIn)
    (dependents : List String) : ℚ :=
  dependents.foldl
    (fun acc dep =>
      match findRouteRisk route_risks dep with
      | none => acc
      | some dep_risk => acc + dep_risk.predicted_delay_hours.getD 0 * 0.3)
    0

/-- Per-route body of `forecast_delay_cascade`. -/
def forecastDelayCascadeOne (route_risks : List RouteRiskIn)
    (network_dependencies : Option NetworkGraph) (r : RouteRiskIn) :
    DelayForecast :=
  let base_delay := forecasterBaseDelay r
  let cascading_delay :=
    match network_dependencies with
    | none => 0
    | some g =>
        if g.isEmpty then 0
        else match g.lookup r.route_id with
          | none => 0
          | some dependents => forecasterCascadingDelay route_risks dependents
  { route_id := r.route_id
    predicted_delay_hours := base_delay + cascading_delay
    base_delay := base_delay
    cascading_delay := cascading_delay
    risk_level := r.risk_level
    confidence := some (if 0.5 < r.total_risk then 0.7 else 0.5) }

/-- `TimeSeriesForecaster.forecast_delay_cascade`
(time_series_forecaster.py lines 102-156). -/
def forecastDelayCascade (route_risks : List RouteRiskIn)
    (network_dependencies : Option NetworkGraph) : List DelayForecast :=
  route_risks.map (forecastDelayCascadeOne route_risks network_dependencies)

/-- Modelled from the spec: the cascading-delay formula as the spec words it
in section 4.4 — `cascading_delay = Σ over dependents of
(dependent_base_delay * 0.3)`, each dependent contributing 30 percent of its
OWN predicted base delay (base formula of the scorer variant). Used only to
compare the source functions against the spec sentence. -/
def specCascadingDelay (route_risks : List RouteRiskIn)
    (network_graph : Option NetworkGraph) (rid : String) : ℚ :=
  match network_graph with
  | none => 0
  | some g =>
      match g.lookup rid with
      | none => 0
      | some dependents =>
          (dependents.map (fun dep =>
            match findRouteRisk route_risks dep with
            | none => 0
            | some dep_risk => scorerBaseDelay dep_risk * 0.3)).sum

/-! ## Traffic pipeline (src/backend/data/pipelines/port_traffic_pipeline.py) -/

/-- The dict produced by `DataSimulator.generate_port_traffic`
(data_simulator.py lines 88-111), plus the two fields
`ingest_port_traffic` may add (lines 65-66). Latitude and longitude,
port name and capacity do not affect any claim and are omitted. -/
structure TrafficData where
  vessel_count : ℤ
  wait_time_hours : ℚ
  congestion_index : ℚ
  timestamp : Option ℚ := none
  previous_vessel_count : Option ℤ := none
  trend : Option String := none
deriving Repr, DecidableEq

/-- The `{timestamp, data}` dict `_save_cache` writes; the `timestamp` key
is checked for presence by `_is_cache_valid`, hence `Option`. -/
structure TrafficCacheEntry where
  timestamp : Option ℚ
  data : TrafficData
deriving Repr, DecidableEq

/-- State of the per-port cache file on disk. -/
inductive CacheFile where
  | absent
  | corrupt
  | stored (e : TrafficCacheEntry)
deriving Repr, DecidableEq

/-- One element of the per-port `_history.json` list
(port_traffic_pipeline.py lines 143-148). -/
structure HistoryEntry where
  timestamp : ℚ
  vessel_count : ℤ
  wait_time_hours : ℚ
  congestion_index : ℚ
deriving Repr, DecidableEq

/-- Durable state owned by one port of the traffic pipeline: the cache file
and the history file (an absent history file reads as the empty list,
port_traffic_pipeline.py line 137). -/
structure PipelineState where
  cacheFile : CacheFile
  history : List HistoryEntry
deriving Repr, DecidableEq

/-- `PortTrafficPipeline._load_cache` (lines 117-123): a corrupt or missing
file yields `None`. -/
def loadCache : CacheFile → Option TrafficCacheEntry
  | .absent => none
  | .corrupt => none
  | .stored e => some e

/-- `self.cache_duration = timedelta(minutes=5)` in seconds
(port_traffic_pipeline.py line 37). -/
def trafficCacheDuration : ℚ := 300

/-- `self.cache_duration = timedelta(minutes=10)` of the weather pipeline in
seconds (weather_pipeline.py). -/
def weatherCacheDuration : ℚ := 600

/-- `timedelta(days=7)` in seconds (port_traffic_pipeline.py line 151). -/
def sevenDays : ℚ := 604800

/-- `PortTrafficPipeline._is_cache_valid` (lines 125-131), identical to
`WeatherPipeline._is_cache_valid` (weather_pipeline.py lines 147-153) up to
the configured duration: false when the `timestamp` key is missing,
otherwise `now - cache_time < cache_duration`. Times are seconds. -/
def isCacheValid (now cache_duration : ℚ) (e : TrafficCacheEntry) : Bool :=
  match e.timestamp with
  | none => false
  | some cache_time => now - cache_time < cache_duration

/-- Regeneration branch of `ingest_port_traffic` (lines 58-71): attach
`previous_vessel_count` and `trend` when a previous cache entry loads, then
write through to the cache file. The history file is not touched. -/
def regeneratePortTraffic (now : ℚ) (fresh : TrafficData)
    (s : PipelineState) : TrafficData × PipelineState :=
  let traffic_data :=
    if s.cacheFile = .absent then fresh
    else
      match loadCache s.cacheFile with
      | none => fresh
      | some previous_data =>
          { fresh with
            previous_vessel_count := some previous_data.data.vessel_count
            trend := some (if previous_data.data.vessel_count < fresh.vessel_count
              then "increasing" else "decreasing") }
  (traffic_data,
   { s with cacheFile := .stored { timestamp := some now, data := traffic_data } })

/-- `PortTrafficPipeline.ingest_port_traffic` (lines 39-71). The external
`simulator.generate_port_traffic` call is the parameter `fresh`; `now` is
the wall clock in seconds. Returns the traffic dict and the new durable
state. -/
def ingestPortTraffic (now : ℚ) (fresh : TrafficData)
    (force_refresh : Bool) (s : PipelineState) : TrafficData × PipelineState :=
  if force_refresh = false ∧ s.cacheFile ≠ .absent then
    match loadCache s.cacheFile with
    | some cache_data =>
        if isCacheValid now trafficCacheDuration cache_data
        then (cache_data.data, s)
        else regeneratePortTraffic now fresh s
    | none => regeneratePortTraffic now fresh s
  else regeneratePortTraffic now fresh s

/-- `PortTrafficPipeline.update_port_history` (lines 133-158): append the new
entry, then keep only entries with `timestamp >= now - 7 days`. Not called
from `ingest_port_traffic` nor from anywhere else in the repository. -/
def updatePortHistory (now : ℚ) (traffic_data : TrafficData)
    (history : List HistoryEntry) : List HistoryEntry :=
  let entry : HistoryEntry :=
    { timestamp := traffic_data.timestamp.getD now
      vessel_count := traffic_data.vessel_count
      wait_time_hours := traffic_data.wait_time_hours
      congestion_index := traffic_data.congestion_index }
  (history ++ [entry]).filter (fun e => now - sevenDays ≤ e.timestamp)

/-! ## Bottleneck weather merge (src/backend/main.py) -/

/-- A weather dict as merged by `get_routes`; only `severity` is inspected,
the record is selected whole. -/
structure WeatherRecord where
  severity : String
  wtype : String := ""
  duration_hours : ℚ := 0
deriving Repr, DecidableEq

/-- `_weather_severity_value` (main.py lines 71-74). -/
def weatherSeverityValue (severity : String) : ℕ :=
  if severity = "none" then 0
  else if severity = "light" then 1
  else if severity = "moderate" then 2
  else if severity = "severe" then 3
  else if severity = "extreme" then 4
  else 0

/-- The `worst_weather` selection of `get_routes` (main.py lines 150-153):
origin wins on the non-strict `>=` comparison, destination otherwise. -/
def worstWeather (origin_weather dest_weather : WeatherRecord) : WeatherRecord :=
  if weatherSeverityValue dest_weather.severity ≤
      weatherSeverityValue origin_weather.severity
  then origin_weather else dest_weather

/-! ## Concrete example inputs, used by closed counterexample and witness
statements -/

/-- A high-risk route assessment with total risk 1. -/
def routeA : RouteRiskIn := { route_id := "A", total_risk := 1, risk_level := "high" }

/-- A low-risk route assessment with total risk 0 (base delay 0 in the
scorer variant). -/
def routeB : RouteRiskIn := { route_id := "B", total_risk := 0, risk_level := "low" }

/-- Dependency graph with route B depending on route A. -/
def graphAB : NetworkGraph := [("A", ["B"])]

/-- In-domain weather input: extreme hurricane lasting 48 hours. -/
def exampleWeather : WeatherData :=
  { severity := some "extreme", wtype := some "hurricane", duration_hours := some 48 }

/-- In-domain sentiment input: score -1, 10 articles, 5 urgency keywords. -/
def exampleSentiment : SentimentData :=
  { sentiment_score := some (-1), article_count := some 10, urgency_keywords := some 5 }

/-- In-domain congestion input: index 1, 72 wait hours, 50 vessels. -/
def exampleCongestion : CongestionData :=
  { congestion_index := some 1, wait_time_hours := some 72, vessel_count := some 50 }

/-- Out-of-range congestion input: negative congestion index. -/
def badCongestion : CongestionData :=
  { congestion_index := some (-2), wait_time_hours := some 0, vessel_count := some 0 }

/-- In-domain historical input. -/
def exampleHistorical : HistoricalData :=
  { disruption_rate := some (1/2), recent_disruptions := some 2 }

/-- A freshly generated traffic record without a timestamp field. -/
def freshTraffic : TrafficData :=
  { vessel_count := 10, wait_time_hours := 5, congestion_index := 0.5 }

/-- A freshly generated traffic record stamped at time 900. -/
def stampedTraffic : TrafficData :=
  { vessel_count := 10, wait_time_hours := 5, congestion_index := 0.5,
    timestamp := some 900 }

/-- Pipeline state before any ingestion: no cache file, empty history. -/
def emptyState : PipelineState := { cacheFile := .absent, history := [] }

/-! ## Helper lemmas -/

lemma computeWeatherRisk_le_one (wd : WeatherData) : computeWeatherRisk wd ≤ 1 := by
  unfold computeWeatherRisk
  exact le_trans (min_le_left _ _) (by norm_num)

lemma computeSentimentRisk_le_one (sd : SentimentData) : computeSentimentRisk sd ≤ 1 := by
  unfold computeSentimentRisk
  exact le_trans (min_le_left _ _) (by norm_num)

lemma computeCongestionRisk_le_one (cd : CongestionData) : computeCongestionRisk cd ≤ 1 := by
  unfold computeCongestionRisk
  exact le_trans (min_le_left _ _) (by norm_num)

lemma computeHistoricalRisk_le_one (hd : Option HistoricalData) :
    computeHistoricalRisk hd ≤ 1 := by
  cases hd with
  | none => norm_num [computeHistoricalRisk]
  | some d =>
      unfold computeHistoricalRisk
      exact le_trans (min_le_left _ _) (by norm_num)

lemma severityBase_nonneg (s : String) : 0 ≤ severityBase s := by
  unfold severityBase
  split_ifs <;> norm_num

lemma typeMultiplier_pos (t : String) : 0 < typeMultiplier t := by
  unfold typeMultiplier
  split_ifs <;> norm_num

lemma normalizeWeights_sum (w s c h : ℚ) (hne : w + s + c + h ≠ 0) :
    (normalizeWeights w s c h).weather + (normalizeWeights w s c h).sentiment +
      (normalizeWeights w s c h).congestion + (normalizeWeights w s c h).historical = 1 := by
  unfold normalizeWeights
  field_simp

/-! ## Theorems for the claims -/

/-- C5: with `historical_data = None` the historical component is the 0.1
default, and under the default weights 0.35/0.30/0.25/0.10 the total risk of
`compute_route_risk` is at most 0.91 for every combination of weather,
sentiment and congestion inputs. -/
theorem historical_default_caps_risk (rid : String) (wd : WeatherData)
    (sd : SentimentData) (cd : CongestionData) :
    computeHistoricalRisk none = 0.1 ∧
    (computeRouteRisk defaultWeights rid wd sd cd none).total_risk ≤ 0.91 := by
  constructor
  · rfl
  · have hw := computeWeatherRisk_le_one wd
    have hs := computeSentimentRisk_le_one sd
    have hc := computeCongestionRisk_le_one cd
    simp only [computeRouteRisk, defaultWeights, normalizeWeights, computeHistoricalRisk]
    norm_num
    linarith

/-- C7: `compute_route_risk` stores the risk level computed from its total
risk by the closed-above threshold branch: totals of 0.7 and above are
classified high, totals in [0.4, 0.7) medium, totals below 0.4 low. -/
theorem risk_level_boundaries :
    (∀ (ws : Weights) (rid : String) (wd : WeatherData) (sd : SentimentData)
        (cd : CongestionData) (hd : Option HistoricalData),
      (computeRouteRisk ws rid wd sd cd hd).risk_level =
        riskLevelOf (computeRouteRisk ws rid wd sd cd hd).total_risk) ∧
    (∀ t : ℚ,
      (0.7 ≤ t → riskLevelOf t = "high") ∧
      (0.4 ≤ t → t < 0.7 → riskLevelOf t = "medium") ∧
      (t < 0.4 → riskLevelOf t = "low")) := by
  constructor
  · intro ws rid wd sd cd hd
    rfl
  · intro t
    refine ⟨fun h => ?_, fun h1 h2 => ?_, fun h => ?_⟩
    · unfold riskLevelOf highRiskThreshold
      rw [if_pos h]
    · unfold riskLevelOf highRiskThreshold mediumRiskThreshold
      rw [if_neg (not_le.mpr h2), if_pos h1]
    · unfold riskLevelOf highRiskThreshold mediumRiskThreshold
      rw [if_neg (not_le.mpr (by linarith)), if_neg (not_le.mpr h)]

/-- Witness for C7 at the boundary totals named by the claim. -/
theorem risk_level_boundaries_witness :
    riskLevelOf 0.7 = "high" ∧ riskLevelOf 0.4 = "medium" ∧
    riskLevelOf 0.39999 = "low" :=
  ⟨(risk_level_boundaries.2 0.7).1 (by norm_num),
   (risk_level_boundaries.2 0.4).2.1 (by norm_num) (by norm_num),
   (risk_level_boundaries.2 0.39999).2.2 (by norm_num)⟩

/-- C8: for a cache entry created at time `created`, the validity check at
read time is true exactly when `now - created < ttl`; hence it is true at
every instant of `[created, created + ttl)` and false at every instant
strictly after `created + ttl`. -/
theorem cache_validity_monotone (now created ttl : ℚ) (e : TrafficCacheEntry)
    (h : e.timestamp = some created) :
    (isCacheValid now ttl e = true ↔ now - created < ttl) ∧
    (∀ t2, created ≤ t2 → t2 < created + ttl → isCacheValid t2 ttl e = true) ∧
    (∀ t1, created + ttl < t1 → isCacheValid t1 ttl e = false) := by
  refine ⟨?_, fun t2 h1 h2 => ?_, fun t1 h1 => ?_⟩
  · simp [isCacheValid, h]
  · simp only [isCacheValid, h, decide_eq_true_eq]
    linarith
  · simp only [isCacheValid, h, decide_eq_false_iff_not, not_lt]
    linarith

/-- Witness for C8: a concrete traffic cache entry created at time 0 with
the traffic TTL of 300 seconds is valid at time 100 and invalid at 400. -/
theorem cache_validity_monotone_witness :
    isCacheValid 100 300 { timestamp := some 0,
                           data := { vessel_count := 10, wait_time_hours := 5,
                                     congestion_index := 0.5 } } = true ∧
    isCacheValid 400 300 { timestamp := some 0,
                           data := { vessel_count := 10, wait_time_hours := 5,
                                     congestion_index := 0.5 } } = false :=
  ⟨(cache_validity_monotone 100 0 300 _ rfl).2.1 100 (by norm_num) (by norm_num),
   (cache_validity_monotone 400 0 300 _ rfl).2.2 400 (by norm_num)⟩

/-- C9: for any four positive weights, construction succeeds and the four
normalized weights stored sum to exactly 1 (`ℚ` model, so within any
floating tolerance), regardless of magnitude or ordering. -/
theorem weights_normalized_sum_one (w s c h : ℚ)
    (hw : 0 < w) (hs : 0 < s) (hc : 0 < c) (hh : 0 < h) :
    ∃ ws, riskScorerInit w s c h = some ws ∧
      ws.weather + ws.sentiment + ws.congestion + ws.historical = 1 := by
  have hne : w + s + c + h ≠ 0 := by positivity
  exact ⟨normalizeWeights w s c h, by simp [riskScorerInit, hne],
    normalizeWeights_sum w s c h hne⟩

/-- Witness for C9 at the default weight vector. -/
theorem weights_normalized_sum_one_witness :
    ∃ ws, riskScorerInit 0.35 0.30 0.25 0.10 = some ws ∧
      ws.weather + ws.sentiment + ws.congestion + ws.historical = 1 :=
  weights_normalized_sum_one 0.35 0.30 0.25 0.10
    (by norm_num) (by norm_num) (by norm_num) (by norm_num)

/-- C6: the bottleneck merge keeps the endpoint record of higher severity
ordinal (none 0, light 1, moderate 2, severe 3, extreme 4), with the
non-strict comparison on the origin side deciding ties toward the origin;
with origin severity moderate and destination severity extreme the merged
weather is the destination record. -/
theorem worst_weather_bottleneck :
    (weatherSeverityValue "none" = 0 ∧ weatherSeverityValue "light" = 1 ∧
     weatherSeverityValue "moderate" = 2 ∧ weatherSeverityValue "severe" = 3 ∧
     weatherSeverityValue "extreme" = 4) ∧
    (∀ o d : WeatherRecord,
      (weatherSeverityValue d.severity ≤ weatherSeverityValue o.severity →
        worstWeather o d = o) ∧
      (weatherSeverityValue o.severity < weatherSeverityValue d.severity →
        worstWeather o d = d) ∧
      (weatherSeverityValue o.severity = weatherSeverityValue d.severity →
        worstWeather o d = o) ∧
      (o.severity = "moderate" → d.severity = "extreme" →
        worstWeather o d = d)) := by
  refine ⟨by decide, fun o d => ⟨fun h => ?_, fun h => ?_, fun h => ?_, fun h1 h2 => ?_⟩⟩
  · rw [worstWeather, if_pos h]
  · rw [worstWeather, if_neg (not_le.mpr h)]
  · rw [worstWeather, if_pos (le_of_eq h.symm)]
  · rw [worstWeather, if_neg]
    rw [h1, h2]
    decide

/-- Witness for C6 at the concrete severity pair named by the claim. -/
theorem worst_weather_bottleneck_witness :
    worstWeather { severity := "moderate", wtype := "storm", duration_hours := 12 }
        { severity := "extreme", wtype := "hurricane", duration_hours := 6 } =
      { severity := "extreme", wtype := "hurricane", duration_hours := 6 } :=
  (worst_weather_bottleneck.2
    { severity := "moderate", wtype := "storm", duration_hours := 12 }
    { severity := "extreme", wtype := "hurricane", duration_hours := 6 }).2.2.2 rfl rfl

/-- C10: when ingest regenerates (forced refresh or stale cache) and a
previous cache entry loads, the returned record's trend is increasing
exactly when the new vessel count strictly exceeds the previous one, and
decreasing in every other case — equal counts give decreasing, and the
stable tag is never produced. -/
theorem ingest_trend_derivation (now : ℚ) (fresh : TrafficData)
    (force_refresh : Bool) (s : PipelineState) (prev : TrafficCacheEntry)
    (hs : s.cacheFile = .stored prev)
    (hregen : force_refresh = true ∨
      isCacheValid now trafficCacheDuration prev = false) :
    ((ingestPortTraffic now fresh force_refresh s).1.trend = some "increasing" ↔
      prev.data.vessel_count < fresh.vessel_count) ∧
    (fresh.vessel_count ≤ prev.data.vessel_count →
      (ingestPortTraffic now fresh force_refresh s).1.trend = some "decreasing") ∧
    (fresh.vessel_count = prev.data.vessel_count →
      (ingestPortTraffic now fresh force_refresh s).1.trend = some "decreasing") ∧
    (ingestPortTraffic now fresh force_refresh s).1.trend ≠ some "stable" := by
  have habs : s.cacheFile ≠ .absent := by rw [hs]; intro hcon; cases hcon
  have hload : loadCache s.cacheFile = some prev := by rw [hs]; rfl
  have hregenerate : ingestPortTraffic now fresh force_refresh s =
      regeneratePortTraffic now fresh s := by
    rcases hregen with hf | hv
    · rw [ingestPortTraffic, if_neg]
      simp [hf]
    · rw [ingestPortTraffic]
      rcases Bool.eq_false_or_eq_true force_refresh with hf | hf
      · rw [if_neg]
        simp [hf]
      · rw [if_pos ⟨hf, habs⟩, hload]
        simp [hv]
  have hout : (ingestPortTraffic now fresh force_refresh s).1 =
      { fresh with
        previous_vessel_count := some prev.data.vessel_count
        trend := some (if prev.data.vessel_count < fresh.vessel_count
          then "increasing" else "decreasing") } := by
    rw [hregenerate, regeneratePortTraffic]
    simp [if_neg habs, hload]
  rw [hout]
  by_cases hlt : prev.data.vessel_count < fresh.vessel_count
  · refine ⟨by simp [hlt], fun hle => absurd hlt (not_lt.mpr hle), fun heq => ?_, ?_⟩
    · omega
    · simp [hlt]
  · refine ⟨by simp [hlt], fun _ => by simp [hlt], fun _ => by simp [hlt], by simp [hlt]⟩

/-- Witness for C10: a forced refresh over a cached entry with the same
vessel count yields the decreasing trend tag. -/
theorem ingest_trend_derivation_witness :
    (ingestPortTraffic 1000
      { vessel_count := 10, wait_time_hours := 5, congestion_index := 0.5 } true
      { cacheFile := .stored { timestamp := some 0,
                               data := { vessel_count := 10, wait_time_hours := 4,
                                         congestion_index := 0.4 } },
        history := [] }).1.trend = some "decreasing" :=
  (ingest_trend_derivation 1000
    { vessel_count := 10, wait_time_hours := 5, congestion_index := 0.5 } true
    { cacheFile := .stored { timestamp := some 0,
                             data := { vessel_count := 10, wait_time_hours := 4,
                                       congestion_index := 0.4 } },
      history := [] }
    { timestamp := some 0,
      data := { vessel_count := 10, wait_time_hours := 4,
                congestion_index := 0.4 } }
    rfl (Or.inl rfl)).2.2.1 rfl

lemma scorerCascadingDelay_eq (base : ℚ) (deps : List String) :
    scorerCascadingDelay base deps = base * 0.3 * deps.length := by
  have h : ∀ (l : List String) (acc : ℚ),
      l.foldl (fun a _ => a + base * 0.3) acc = acc + base * 0.3 * l.length := by
    intro l
    induction l with
    | nil => intro acc; simp
    | cons d ds ih =>
        intro acc
        rw [List.foldl_cons, ih, List.length_cons]
        push_cast
        ring
  rw [scorerCascadingDelay, h deps 0, zero_add]

lemma forecasterCascadingDelay_eq (route_risks : List RouteRiskIn)
    (deps : List String) :
    forecasterCascadingDelay route_risks deps =
      (deps.map (fun dep =>
        match findRouteRisk route_risks dep with
        | none => 0
        | some dep_risk => dep_risk.predicted_delay_hours.getD 0 * 0.3)).sum := by
  have h : ∀ (l : List String) (acc : ℚ),
      l.foldl
        (fun a dep =>
          match findRouteRisk route_risks dep with
          | none => a
          | some dep_risk => a + dep_risk.predicted_delay_hours.getD 0 * 0.3) acc =
      acc + (l.map (fun dep =>
        match findRouteRisk route_risks dep with
        | none => 0
        | some dep_risk => dep_risk.predicted_delay_hours.getD 0 * 0.3)).sum := by
    intro l
    induction l with
    | nil => intro acc; simp
    | cons d ds ih =>
        intro acc
        rw [List.foldl_cons, List.map_cons, List.sum_cons]
        cases hfind : findRouteRisk route_risks d with
        | none => simp only [hfind]; rw [ih]; ring
        | some dep_risk => simp only [hfind]; rw [ih]; ring
  rw [forecasterCascadingDelay, h deps 0, zero_add]

/-- C1 counterexample: with route A high risk total 1 depending on the
zero-delay low-risk route B, `predict_cascading_delays` gives route A the
cascading delay 54 * 0.3 = 16.2 hours (30 percent of A's OWN base delay),
while the spec formula — 30 percent of the dependent route B's own base
delay — gives 0. -/
theorem cascade_claim_counterexample :
    ((predictCascadingDelays [routeA, routeB] (some graphAB)).map
      (fun f => f.cascading_delay)) = [81/5, 0] ∧
    specCascadingDelay [routeA, routeB] (some graphAB) "A" = 0 ∧
    (81/5 : ℚ) ≠ 0 := by
  refine ⟨?_, ?_, by norm_num⟩
  · norm_num [predictCascadingDelays, predictCascadingDelaysOne, scorerBaseDelay,
      scorerCascadingDelay, routeA, routeB, graphAB, List.lookup, List.foldl]
    rfl
  · norm_num [specCascadingDelay, findRouteRisk, scorerBaseDelay, routeA, routeB,
      graphAB, List.lookup, List.find?]
    rfl

/-- C1 amended: in `predict_cascading_delays` each dependent contributes 30
percent of the UPSTREAM route's own base delay, so a route's cascading delay
is `base_delay * 0.3 * (number of dependents)`; in `forecast_delay_cascade`
each dependent found in the input list contributes 30 percent of that
dependent's `predicted_delay_hours` input field (defaulting to 0, and the
assessments `compute_route_risk` produces carry no such field); in both
variants `total_delay = base_delay + cascading_delay`. -/
theorem cascade_amended :
    (∀ (route_risks : List RouteRiskIn) (g : Option NetworkGraph),
      ∀ f ∈ predictCascadingDelays route_risks g,
        f.predicted_delay_hours = f.base_delay + f.cascading_delay) ∧
    (∀ (g : NetworkGraph) (r : RouteRiskIn) (deps : List String),
      g.isEmpty = false → g.lookup r.route_id = some deps →
      (predictCascadingDelaysOne (some g) r).cascading_delay =
        scorerBaseDelay r * 0.3 * deps.length) ∧
    (∀ (route_risks : List RouteRiskIn) (g : NetworkGraph) (r : RouteRiskIn)
        (deps : List String),
      g.isEmpty = false → g.lookup r.route_id = some deps →
      (forecastDelayCascadeOne route_risks (some g) r).cascading_delay =
        (deps.map (fun dep =>
          match findRouteRisk route_risks dep with
          | none => 0
          | some dep_risk => dep_risk.predicted_delay_hours.getD 0 * 0.3)).sum) ∧
    (∀ (route_risks : List RouteRiskIn) (g : Option NetworkGraph),
      ∀ f ∈ forecastDelayCascade route_risks g,
        f.predicted_delay_hours = f.base_delay + f.cascading_delay) := by
  refine ⟨fun rr g f hf => ?_, fun g r deps hne hlook => ?_,
          fun rr g r deps hne hlook => ?_, fun rr g f hf => ?_⟩
  · obtain ⟨r, _, rfl⟩ := List.mem_map.mp hf
    rfl
  · simp only [predictCascadingDelaysOne, hne, hlook, Bool.false_eq_true, if_false]
    exact scorerCascadingDelay_eq _ _
  · simp only [forecastDelayCascadeOne, hne, hlook, Bool.false_eq_true, if_false]
    exact forecasterCascadingDelay_eq _ _
  · obtain ⟨r, _, rfl⟩ := List.mem_map.mp hf
    rfl

/-- Witness for the amended C1 at a concrete route with two dependents. -/
theorem cascade_amended_witness :
    (predictCascadingDelaysOne (some [("A", ["B", "C"])])
        { route_id := "A", total_risk := 1, risk_level := "high" }).cascading_delay =
      scorerBaseDelay { route_id := "A", total_risk := 1, risk_level := "high" } *
        0.3 * ((["B", "C"] : List String).length : ℚ) :=
  cascade_amended.2.1 [("A", ["B", "C"])]
    { route_id := "A", total_risk := 1, risk_level := "high" } ["B", "C"] rfl rfl

/-- C2 counterexample: construction with the weight vector (-1, 2, 2, 1)
does not fail; it succeeds and silently renormalizes, storing the negative
weather weight -1/4. -/
theorem init_negative_weight_counterexample :
    riskScorerInit (-1) 2 2 1 =
      some { weather := -(1/4), sentiment := 1/2, congestion := 1/2,
             historical := 1/4 } ∧
    (-(1/4) : ℚ) < 0 :=
  ⟨by norm_num [riskScorerInit, normalizeWeights], by norm_num⟩

/-- C2 amended: `RiskScorer.__init__` performs no validation; for every
weight vector with nonzero sum — negative entries included — construction
succeeds, silently renormalizing by dividing each weight by the sum (the
normalized weights still sum to 1, and a negative input with positive total
is stored as a negative normalized weight). -/
theorem init_no_validation (w s c h : ℚ) (hne : w + s + c + h ≠ 0) :
    riskScorerInit w s c h = some (normalizeWeights w s c h) ∧
    (normalizeWeights w s c h).weather + (normalizeWeights w s c h).sentiment +
      (normalizeWeights w s c h).congestion +
      (normalizeWeights w s c h).historical = 1 ∧
    (w < 0 → 0 < w + s + c + h → (normalizeWeights w s c h).weather < 0) := by
  refine ⟨by simp [riskScorerInit, hne], normalizeWeights_sum w s c h hne,
    fun hw hpos => ?_⟩
  simp only [normalizeWeights]
  exact div_neg_of_neg_of_pos hw hpos

/-- Witness for the amended C2 at the weight vector (-1, 2, 2, 1). -/
theorem init_no_validation_witness :
    riskScorerInit (-1) 2 2 1 = some (normalizeWeights (-1) 2 2 1) ∧
    (normalizeWeights (-1) 2 2 1).weather + (normalizeWeights (-1) 2 2 1).sentiment +
      (normalizeWeights (-1) 2 2 1).congestion +
      (normalizeWeights (-1) 2 2 1).historical = 1 ∧
    ((-1 : ℚ) < 0 → (0 : ℚ) < (-1) + 2 + 2 + 1 →
      (normalizeWeights (-1) 2 2 1).weather < 0) :=
  init_no_validation (-1) 2 2 1 (by norm_num)

/-- C3 counterexample: an ingest call on an empty state generates and
returns the fresh value, yet the per-port history log stays empty — the
fresh value is not appended to it. -/
theorem ingest_history_counterexample :
    (ingestPortTraffic 1000
        { vessel_count := 10, wait_time_hours := 5, congestion_index := 0.5 } false
        { cacheFile := .absent, history := [] }).1 =
      { vessel_count := 10, wait_time_hours := 5, congestion_index := 0.5 } ∧
    (ingestPortTraffic 1000
        { vessel_count := 10, wait_time_hours := 5, congestion_index := 0.5 } false
        { cacheFile := .absent, history := [] }).2.history = [] :=
  ⟨rfl, rfl⟩

/-- C3 amended: `ingest_port_traffic` never touches the history log on any
path (it only writes the cache); the separate `update_port_history` method
— called from nowhere in the repository — does append the generated value
and keeps the log bounded to the 7-day trailing window. -/
theorem ingest_history_amended :
    (∀ (now : ℚ) (fresh : TrafficData) (force_refresh : Bool) (s : PipelineState),
      (ingestPortTraffic now fresh force_refresh s).2.history = s.history) ∧
    (∀ (now : ℚ) (td : TrafficData) (history : List HistoryEntry),
      ∀ e ∈ updatePortHistory now td history, now - sevenDays ≤ e.timestamp) ∧
    (∀ (now : ℚ) (td : TrafficData) (history : List HistoryEntry),
      now - sevenDays ≤ td.timestamp.getD now →
      ({ timestamp := td.timestamp.getD now, vessel_count := td.vessel_count,
         wait_time_hours := td.wait_time_hours,
         congestion_index := td.congestion_index } : HistoryEntry) ∈
        updatePortHistory now td history) := by
  refine ⟨fun now fresh force_refresh s => ?_, fun now td history e he => ?_,
    fun now td history h => ?_⟩
  · have hreg : (regeneratePortTraffic now fresh s).2.history = s.history := rfl
    rw [ingestPortTraffic]
    split_ifs with hcond
    · cases hl : loadCache s.cacheFile with
      | none => simp only [hl]; exact hreg
      | some cache_data =>
          simp only [hl]
          split_ifs
          · rfl
          · exact hreg
    · exact hreg
  · rw [updatePortHistory] at he
    exact of_decide_eq_true (List.mem_filter.mp he).2
  · rw [updatePortHistory]
    exact List.mem_filter.mpr
      ⟨List.mem_append.mpr (Or.inr (List.mem_singleton.mpr rfl)), decide_eq_true h⟩

/-- Witness for the amended C3: updating the empty history log with a
traffic record stamped inside the window stores exactly that entry. -/
theorem ingest_history_amended_witness :
    ({ timestamp := 900, vessel_count := 10, wait_time_hours := 5,
       congestion_index := 0.5 } : HistoryEntry) ∈
      updatePortHistory 1000 stampedTraffic [] :=
  ingest_history_amended.2.2 1000 stampedTraffic []
    (by norm_num [stampedTraffic, sevenDays, Option.getD_some])

/-- C4 counterexample: an out-of-range congestion index of -2 yields a
congestion risk of -1, outside [0,1] — the scorers clamp only from above. -/
theorem congestion_out_of_range_counterexample :
    computeCongestionRisk badCongestion = -1 ∧ (-1 : ℚ) < 0 :=
  ⟨by norm_num [computeCongestionRisk, badCongestion, min_def], by norm_num⟩

/-- C4 amended: every component scorer stays in [0,1] for inputs inside the
documented domain ranges, and is clamped from above at 1 for ALL inputs; but
there is no lower clamp, so numeric inputs below their domain can push the
output below 0 (they do not raise). -/
theorem component_risk_bounds_amended (wd : WeatherData) (sd : SentimentData)
    (cd : CongestionData) (hd : HistoricalData) :
    (0 ≤ wd.duration_hours.getD 0 →
      0 ≤ computeWeatherRisk wd ∧ computeWeatherRisk wd ≤ 1) ∧
    (-1 ≤ sd.sentiment_score.getD 0 → sd.sentiment_score.getD 0 ≤ 1 →
      0 ≤ sd.article_count.getD 0 → 0 ≤ sd.urgency_keywords.getD 0 →
      0 ≤ computeSentimentRisk sd ∧ computeSentimentRisk sd ≤ 1) ∧
    (0 ≤ cd.congestion_index.getD 0 → 0 ≤ cd.wait_time_hours.getD 0 →
      0 ≤ cd.vessel_count.getD 0 →
      0 ≤ computeCongestionRisk cd ∧ computeCongestionRisk cd ≤ 1) ∧
    (0 ≤ hd.disruption_rate.getD 0 → 0 ≤ hd.recent_disruptions.getD 0 →
      0 ≤ computeHistoricalRisk (some hd) ∧ computeHistoricalRisk (some hd) ≤ 1) ∧
    (0 ≤ computeHistoricalRisk none ∧ computeHistoricalRisk none ≤ 1) ∧
    (computeWeatherRisk wd ≤ 1 ∧ computeSentimentRisk sd ≤ 1 ∧
      computeCongestionRisk cd ≤ 1 ∧ computeHistoricalRisk (some hd) ≤ 1) := by
  refine ⟨fun hdur => ⟨?_, computeWeatherRisk_le_one wd⟩,
          fun hs1 hs2 ha hu => ⟨?_, computeSentimentRisk_le_one sd⟩,
          fun hci hwh hv => ⟨?_, computeCongestionRisk_le_one cd⟩,
          fun hdr hrd => ⟨?_, computeHistoricalRisk_le_one (some hd)⟩,
          ⟨by norm_num [computeHistoricalRisk], by norm_num [computeHistoricalRisk]⟩,
          computeWeatherRisk_le_one wd, computeSentimentRisk_le_one sd,
          computeCongestionRisk_le_one cd, computeHistoricalRisk_le_one (some hd)⟩
  · have hbase := severityBase_nonneg (wd.severity.getD "none")
    have hmult := typeMultiplier_pos (wd.wtype.getD "storm")
    have hfac : (0 : ℚ) ≤ min 1.0 (wd.duration_hours.getD 0 / 48.0) :=
      le_min (by norm_num) (div_nonneg hdur (by norm_num))
    unfold computeWeatherRisk
    exact le_min (by norm_num)
      (mul_nonneg (mul_nonneg hbase hmult.le) (by linarith))
  · have hvf : (0 : ℚ) ≤ min 1.0 (sd.article_count.getD 0 / 10.0) :=
      le_min (by norm_num) (div_nonneg ha (by norm_num))
    have huf : (0 : ℚ) ≤ min 1.0 (sd.urgency_keywords.getD 0 / 5.0) :=
      le_min (by norm_num) (div_nonneg hu (by norm_num))
    have hsr : (0 : ℚ) ≤ (1.0 - sd.sentiment_score.getD 0) / 2.0 :=
      div_nonneg (by linarith) (by norm_num)
    unfold computeSentimentRisk
    exact le_min (by norm_num) (mul_nonneg hsr (by linarith))
  · have hwf : (0 : ℚ) ≤ min 1.0 (cd.wait_time_hours.getD 0 / 72.0) :=
      le_min (by norm_num) (div_nonneg hwh (by norm_num))
    have hcf : (0 : ℚ) ≤ min 1.0 (cd.vessel_count.getD 0 / 50.0) :=
      le_min (by norm_num) (div_nonneg hv (by norm_num))
    unfold computeCongestionRisk
    exact le_min (by norm_num) (by linarith)
  · have hrf : (0 : ℚ) ≤ min 1.0 (hd.recent_disruptions.getD 0 / 3.0) :=
      le_min (by norm_num) (div_nonneg hrd (by norm_num))
    unfold computeHistoricalRisk
    exact le_min (by norm_num) (by linarith)

/-- Witness for the amended C4 at in-domain inputs for all four scorers. -/
theorem component_risk_bounds_amended_witness :
    (0 ≤ computeWeatherRisk exampleWeather ∧
      computeWeatherRisk exampleWeather ≤ 1) ∧
    (0 ≤ computeSentimentRisk exampleSentiment ∧
      computeSentimentRisk exampleSentiment ≤ 1) ∧
    (0 ≤ computeCongestionRisk exampleCongestion ∧
      computeCongestionRisk exampleCongestion ≤ 1) ∧
    (0 ≤ computeHistoricalRisk (some exampleHistorical) ∧
      computeHistoricalRisk (some exampleHistorical) ≤ 1) :=
  ⟨(component_risk_bounds_amended exampleWeather exampleSentiment
      exampleCongestion exampleHistorical).1
      (by norm_num [exampleWeather, Option.getD_some]),
   (component_risk_bounds_amended exampleWeather exampleSentiment
      exampleCongestion exampleHistorical).2.1
      (by norm_num [exampleSentiment, Option.getD_some])
      (by norm_num [exampleSentiment, Option.getD_some])
      (by norm_num [exampleSentiment, Option.getD_some])
      (by norm_num [exampleSentiment, Option.getD_some]),
   (component_risk_bounds_amended exampleWeather exampleSentiment
      exampleCongestion exampleHistorical).2.2.1
      (by norm_num [exampleCongestion, Option.getD_some])
      (by norm_num [exampleCongestion, Option.getD_some])
      (by norm_num [exampleCongestion, Option.getD_some]),
   (component_risk_bounds_amended exampleWeather exampleSentiment
      exampleCongestion exampleHistorical).2.2.2.1
      (by norm_num [exampleHistorical, Option.getD_some])
      (by norm_num [exampleHistorical, Option.getD_some])⟩

end AtlasSentinel
